import Mathlib

/-!
Verification of the protocol engine of solaxd.c (SolaX X1-Mini RS485 daemon).

Shallow embedding conventions:
* Bytes are `Nat` values below 256; the C arrays involved (`Solax_Message_t`
  fields, `Data[100]`) are `uint8_t`, so where a theorem needs byte bounds it
  carries them as hypotheses.  Received and transmitted messages are byte
  lists; index `i` of the list is byte offset `i` of the C struct
  (Header 0-1, Source 2-3, Destination 4-5, ControlCode 6, FunctionCode 7,
  DataLength 8, Data from 9).
* The C `float` fields of `Solax_LiveData_t` are modelled exactly over `ℚ`;
  the constants 0.1f and 0.01f become 1/10 and 1/100.
* C code whose behaviour is undefined or nonterminating (out-of-bounds
  array access, the non-terminating uint8_t checksum loop reachable for
  DataLength >= 247) is modelled by `Option`: `none` marks inputs on which
  the C program has no defined result.
* Fatal transport errors (the C return value -1) abort the tick before any
  of the logic modelled here and are outside the model.
-/

/-- Receive/send classification from the C enum Solax_ErrorQuery_t
(solaxd.c lines 86-92). ERR_NONE is 0, so the C test `if (errorRx)` is
modelled as `errorRx ≠ ERR_NONE`. -/
inductive Solax_ErrorQuery_t where
  | ERR_NONE
  | ERR_NO_DATA
  | ERR_INVALID_MSG
  | ERR_CRC_ERROR
  deriving DecidableEq

open Solax_ErrorQuery_t

/-- Query state machine states from the C enum Solax_StateQuery_t
(solaxd.c lines 79-84), keeping the spelling of the source. -/
inductive Solax_StateQuery_t where
  | STATE_BROARDCAST
  | STATE_INVERTER_ADDRESS
  | STATE_QUERY_LIVE_DATA
  deriving DecidableEq

open Solax_StateQuery_t

/-- QUALITY_OF_SERVICE_COUNT (solaxd.c line 52): size of the sample history. -/
def QUALITY_OF_SERVICE_COUNT : Nat := 100

/-- TIMEOUT_INVERTER_ONLINE (solaxd.c line 53). -/
def TIMEOUT_INVERTER_ONLINE : Nat := 30

/-- MAX_INDEX_OF_LIVE_DATA (solaxd.c line 54). -/
def MAX_INDEX_OF_LIVE_DATA : Nat := QUALITY_OF_SERVICE_COUNT - 1

/-- Size in bytes of the C struct Solax_Message_t (solaxd.c lines 94-103):
2 + 2 + 2 + 1 + 1 + 1 + 100 bytes, no padding (all members are uint8_t). -/
def Solax_Message_t_size : Nat := 109

/-- solax_CalculateCRC (solaxd.c lines 223-233).  The C loop
`for (i = 0; i <= dataLen; i++) chkSum += data[i];` sums the bytes at
indices 0..dataLen INCLUSIVE (dataLen + 1 bytes) into a uint16_t
accumulator, i.e. each addition wraps modulo 65536.  A read past the end
of the byte list is modelled as 0 (callers in this file never do that on
defined-behaviour paths). -/
def solax_CalculateCRC (data : List Nat) (dataLen : Nat) : Nat :=
  ((List.range (dataLen + 1)).map (fun i => data.getD i 0)).foldl
    (fun chkSum b => (chkSum + b) % 65536) 0

/-- The bytes of a transmit message before the checksum, exactly as
solax_RS485_Send lays them out in the Solax_Message_t struct
(solaxd.c lines 242-246 and the caller-filled fields): marker 0xAA 0x55,
source, destination, control code, function code, DataLength, payload.
The callers (solaxd.c lines 340-387) always store `data.length` in
DataLength. -/
def txBody (source destination : List Nat) (controlCode functionCode : Nat)
    (data : List Nat) : List Nat :=
  0xAA :: 0x55 ::
    (source ++ destination ++ (controlCode :: functionCode :: data.length :: data))

/-- solax_RS485_Send (solaxd.c lines 236-269), restricted to its defined
behaviour: computes the checksum over msgLen = DataLength + 9 bytes
(argument msgLen - 1, the loop being inclusive), stores its high byte then
low byte after the payload, and writes msgLen + 2 bytes to the wire.
highByte is the uint16 shifted right by 8, i.e. crc / 256; lowByte is
crc % 256.  The C performs NO length check: for data.length ≥ 99 the two
checksum stores run past the end of the 100-byte Data array (buffer
overflow, undefined behaviour) — see claim C9. -/
def solax_RS485_Send (source destination : List Nat) (controlCode functionCode : Nat)
    (data : List Nat) : List Nat :=
  let body := txBody source destination controlCode functionCode data
  let crc := solax_CalculateCRC body (data.length + 9 - 1)
  body ++ [crc / 256, crc % 256]

/-- solax_RS485_Receive (solaxd.c lines 272-337), validation part.
Order of checks as in the source: empty read, then header (length < 11 or
marker mismatch), then declared length versus bytes available, then
checksum against the two trailing bytes Data[DataLength], Data[DataLength+1]
(struct offsets 9 + DataLength and 10 + DataLength).

`msgLen` is a uint8_t in the C, hence the explicit `% 256`: for
DataLength ≥ 247 the sum DataLength + 9 wraps, the length guard passes
(msgLen + 2 ≤ 10 < 11 ≤ rxLen) and the C then calls solax_CalculateCRC with
dataLen = msgLen - 1; for DataLength = 247 that argument is 255 and the
uint8_t loop `i <= 255` never terminates, for DataLength 248..255 the
checksum-byte reads Data[DataLength] land past the 109-byte struct.
Both are undefined behaviour, modelled as `none`.  The branch also covers
DataLength in 99..246 together with rx longer than the 109-byte struct,
which the C `read` into Solax_Message_t can never produce (for such
DataLength and rx.length ≤ 109 the length guard always fires first). -/
def solax_RS485_Receive (rx : List Nat) : Option Solax_ErrorQuery_t :=
  if rx.length = 0 then some ERR_NO_DATA
  else if rx.length < 11 ∨ rx.getD 0 0 ≠ 0xAA ∨ rx.getD 1 0 ≠ 0x55 then
    some ERR_INVALID_MSG
  else
    let dataLength := rx.getD 8 0
    let msgLen := (dataLength + 9) % 256
    if msgLen + 2 > rx.length then some ERR_INVALID_MSG
    else if 98 < dataLength then none
    else
      let crc := solax_CalculateCRC rx (msgLen - 1)
      if rx.getD (9 + dataLength) 0 ≠ crc / 256 ∨
          rx.getD (10 + dataLength) 0 ≠ crc % 256 then some ERR_CRC_ERROR
      else some ERR_NONE

/-- Big-endian 16-bit read `(d[i] << 8) | d[i+1]` as used throughout
solax_ReceiveQuery (solaxd.c lines 494-545).  The operands are uint8_t
array elements, so the bitwise OR of the disjoint byte ranges equals this
sum whenever the bytes are below 256 (theorems needing this carry the
byte bound). -/
def word16be (d : List Nat) (i : Nat) : Nat :=
  d.getD i 0 * 256 + d.getD (i + 1) 0

/-- Big-endian 32-bit read `(d[i] << 24) | (d[i+1] << 16) | (d[i+2] << 8) | d[i+3]`
(solaxd.c lines 536 and 540), same byte convention as `word16be`. -/
def word32be (d : List Nat) (i : Nat) : Nat :=
  d.getD i 0 * 2 ^ 24 + d.getD (i + 1) 0 * 2 ^ 16 + d.getD (i + 2) 0 * 256 +
    d.getD (i + 3) 0

/-- Solax_LiveData_t (solaxd.c lines 105-122); the C float fields are
modelled over ℚ, Status is the C uint8_t, ErrorBits the C uint32_t. -/
structure Solax_LiveData_t where
  valid : Bool
  Temperature : ℚ
  Energy_Today : ℚ
  DC1_Voltage : ℚ
  DC2_Voltage : ℚ
  DC1_Current : ℚ
  DC2_Current : ℚ
  AC_Current : ℚ
  AC_Voltage : ℚ
  Frequency : ℚ
  Power : ℚ
  Energy_Total : ℚ
  Runtime_Total : ℚ
  Status : Nat
  ErrorBits : Nat
  deriving DecidableEq

/-- The all-zero sample `(Solax_LiveData_t) {0}` (solaxd.c lines 428 and 672). -/
def zero_LiveData : Solax_LiveData_t :=
  { valid := false
    Temperature := 0
    Energy_Today := 0
    DC1_Voltage := 0
    DC2_Voltage := 0
    DC1_Current := 0
    DC2_Current := 0
    AC_Current := 0
    AC_Voltage := 0
    Frequency := 0
    Power := 0
    Energy_Total := 0
    Runtime_Total := 0
    Status := 0
    ErrorBits := 0 }

/-- The live-data branch of solax_ReceiveQuery (solaxd.c lines 494-560),
applied to the Data array (struct bytes from offset 9).  The target sample
was zeroed at line 428 just before, so the source guards
`if (value) {liveData->Energy_Total = value * 0.1f;}` (lines 537 and 541)
leave 0 when the raw field is 0.  Status keeps only the low byte:
`(uint8_t)((Data[30] << 8) | Data[31])`, hence the explicit `% 256`.
ErrorBits is assembled from Data[49], Data[48], Data[47], Data[46]
(line 556); the C computes it through int shifts whose twos-complement
wrap-around reproduces exactly this value for byte inputs. -/
def solax_DecodeLiveData (Data : List Nat) : Solax_LiveData_t :=
  { valid := true
    Temperature := (word16be Data 0 : ℚ)
    Energy_Today := (word16be Data 2 : ℚ) * (1 / 10)
    DC1_Voltage := (word16be Data 4 : ℚ) * (1 / 10)
    DC2_Voltage := (word16be Data 6 : ℚ) * (1 / 10)
    DC1_Current := (word16be Data 8 : ℚ) * (1 / 10)
    DC2_Current := (word16be Data 10 : ℚ) * (1 / 10)
    AC_Current := (word16be Data 12 : ℚ) * (1 / 10)
    AC_Voltage := (word16be Data 14 : ℚ) * (1 / 10)
    Frequency := (word16be Data 16 : ℚ) * (1 / 100)
    Power := (word16be Data 18 : ℚ)
    Energy_Total := if word32be Data 22 ≠ 0 then (word32be Data 22 : ℚ) * (1 / 10) else 0
    Runtime_Total := if word32be Data 26 ≠ 0 then (word32be Data 26 : ℚ) else 0
    Status := word16be Data 30 % 256
    ErrorBits :=
      Data.getD 49 0 * 2 ^ 24 + Data.getD 48 0 * 2 ^ 16 + Data.getD 47 0 * 256 +
        Data.getD 46 0 }

/-- solax_ReceiveQuery (solaxd.c lines 418-566).  State of the globals it
touches: `serialNumber` is solax_InverterSerialNumber (the 14 captured
bytes, without the C string terminator), `liveDataPrev` the previous
content of the history slot the caller points at.  Returns the
classification returned to solax_QueryHandle, the new slot content and
the new serial number; `none` when solax_RS485_Receive has no defined
result.  Line 428 zeroes the slot before anything else, so `liveDataPrev`
is never consulted (this is what defeats the monotonic guards, claim C8).
Note that a frame that passes the checksum but has the wrong
control/function code still returns ERR_NONE — only the else branches
(serial capture, decode) are skipped. -/
def solax_ReceiveQuery (stateQuery : Solax_StateQuery_t) (serialNumber : List Nat)
    (liveDataPrev : Solax_LiveData_t) (rx : List Nat) :
    Option (Solax_ErrorQuery_t × Solax_LiveData_t × List Nat) :=
  match solax_RS485_Receive rx with
  | none => none
  | some error =>
    let liveData := zero_LiveData
    match stateQuery with
    | STATE_BROARDCAST =>
      if error = ERR_NO_DATA then some (error, liveData, serialNumber)
      else if error = ERR_CRC_ERROR then some (error, liveData, serialNumber)
      else if error = ERR_INVALID_MSG ∨ rx.getD 6 0 ≠ 0x10 ∨ rx.getD 7 0 ≠ 0x80 then
        some (error, liveData, serialNumber)
      else some (error, liveData, (rx.drop 9).take 14)
    | STATE_INVERTER_ADDRESS => some (error, liveData, serialNumber)
    | STATE_QUERY_LIVE_DATA =>
      if error = ERR_NO_DATA then some (error, liveData, serialNumber)
      else if error = ERR_CRC_ERROR then some (error, liveData, serialNumber)
      else if error = ERR_INVALID_MSG ∨ rx.getD 6 0 ≠ 0x11 ∨ rx.getD 7 0 ≠ 0x82 then
        some (error, liveData, serialNumber)
      else some (error, solax_DecodeLiveData (rx.drop 9), serialNumber)

/-- The static state of solax_QueryHandle (solaxd.c lines 572-574) together
with the global solax_InverterOnline flag (line 139). -/
structure QueryHandleState where
  stateQuery : Solax_StateQuery_t
  countError : Nat
  timeoutInverterOnline : Nat
  solax_InverterOnline : Bool
  deriving DecidableEq

/-- Initial values of the solax_QueryHandle statics (solaxd.c lines 572-574,
139): state STATE_QUERY_LIVE_DATA, error count 0, online timeout already at
TIMEOUT_INVERTER_ONLINE, inverter marked offline. -/
def queryHandleInit : QueryHandleState :=
  { stateQuery := STATE_QUERY_LIVE_DATA
    countError := 0
    timeoutInverterOnline := TIMEOUT_INVERTER_ONLINE
    solax_InverterOnline := false }

/-- The switch of solax_QueryHandle (solaxd.c lines 582-639): per-state
error counting and transitions, driven by the classification errorRx.
The C tests `if (errorRx)`, i.e. errorRx ≠ ERR_NONE.  Note the
STATE_QUERY_LIVE_DATA success branch (lines 633-637): it only resets the
online timeout — countError is left unchanged there. -/
def solax_QueryHandle_switch (s : QueryHandleState) (errorRx : Solax_ErrorQuery_t) :
    QueryHandleState :=
  match s.stateQuery with
  | STATE_BROARDCAST =>
    if errorRx ≠ ERR_NONE then
      if s.countError + 1 ≥ 10 then
        { s with countError := 0, stateQuery := STATE_QUERY_LIVE_DATA }
      else { s with countError := s.countError + 1 }
    else { s with countError := 0, stateQuery := STATE_INVERTER_ADDRESS }
  | STATE_INVERTER_ADDRESS =>
    if errorRx ≠ ERR_NONE then
      if s.countError + 1 ≥ 3 then
        { s with countError := 0, stateQuery := STATE_BROARDCAST }
      else { s with countError := s.countError + 1 }
    else { s with countError := 0, stateQuery := STATE_QUERY_LIVE_DATA }
  | STATE_QUERY_LIVE_DATA =>
    if errorRx ≠ ERR_NONE then
      if s.countError + 1 ≥ 3 then
        { s with countError := 0, stateQuery := STATE_BROARDCAST }
      else { s with countError := s.countError + 1 }
    else { s with timeoutInverterOnline := 0 }

/-- The online/offline status update of solax_QueryHandle (solaxd.c lines
641-657), run every tick after the switch: while online the timeout is
incremented and at TIMEOUT_INVERTER_ONLINE the flag goes offline; while
offline the flag goes online exactly when the timeout is 0, and the
timeout itself is not modified. -/
def solax_QueryHandle_online (s : QueryHandleState) : QueryHandleState :=
  if s.solax_InverterOnline = true then
    if s.timeoutInverterOnline + 1 ≥ TIMEOUT_INVERTER_ONLINE then
      { s with timeoutInverterOnline := s.timeoutInverterOnline + 1,
               solax_InverterOnline := false }
    else { s with timeoutInverterOnline := s.timeoutInverterOnline + 1 }
  else
    if s.timeoutInverterOnline = 0 then { s with solax_InverterOnline := true }
    else s

/-- One tick of the solax_QueryHandle state/status logic (solaxd.c lines
582-657): the switch followed by the online update.  The receive that
produces errorRx and the transmit that follows are modelled separately. -/
def solax_QueryHandle_update (s : QueryHandleState) (errorRx : Solax_ErrorQuery_t) :
    QueryHandleState :=
  solax_QueryHandle_online (solax_QueryHandle_switch s errorRx)

/-- Accumulation body of the averaging loop of solax_LiveData_Average
(solaxd.c lines 677-690): nine fields are summed, ErrorBits is OR-ed, and
Energy_Today, Energy_Total, Runtime_Total and Status keep a running
maximum via `if (acc < sample) acc = sample`. -/
def solax_Average_accum (acc s : Solax_LiveData_t) : Solax_LiveData_t :=
  { acc with
    Temperature := acc.Temperature + s.Temperature
    DC1_Voltage := acc.DC1_Voltage + s.DC1_Voltage
    DC2_Voltage := acc.DC2_Voltage + s.DC2_Voltage
    DC1_Current := acc.DC1_Current + s.DC1_Current
    DC2_Current := acc.DC2_Current + s.DC2_Current
    AC_Current := acc.AC_Current + s.AC_Current
    AC_Voltage := acc.AC_Voltage + s.AC_Voltage
    Frequency := acc.Frequency + s.Frequency
    Power := acc.Power + s.Power
    ErrorBits := acc.ErrorBits ||| s.ErrorBits
    Energy_Today :=
      if acc.Energy_Today < s.Energy_Today then s.Energy_Today else acc.Energy_Today
    Energy_Total :=
      if acc.Energy_Total < s.Energy_Total then s.Energy_Total else acc.Energy_Total
    Runtime_Total :=
      if acc.Runtime_Total < s.Runtime_Total then s.Runtime_Total else acc.Runtime_Total
    Status := if acc.Status < s.Status then s.Status else acc.Status }

/-- One iteration of the averaging loop of solax_LiveData_Average
(solaxd.c lines 674-701) on the loop state (accumulator, walk index idx,
valid-sample count cnt).  The source reads
`if (liveData[idx].valid != true) continue;` — on an invalid slot NOTHING
of the loop state changes (in particular idx is not advanced; only the
loop counter i moves on), which is the stall behaviour of claims C7/C10.
On a valid slot it accumulates, steps idx backward with wraparound
(`if (idx) idx--; else idx = max_idx;`) and increments cnt. -/
def solax_Average_step (liveData : List Solax_LiveData_t) (max_idx : Nat)
    (st : Solax_LiveData_t × Nat × Nat) : Solax_LiveData_t × Nat × Nat :=
  if (liveData.getD st.2.1 zero_LiveData).valid = true then
    (solax_Average_accum st.1 (liveData.getD st.2.1 zero_LiveData),
     if st.2.1 = 0 then max_idx else st.2.1 - 1,
     st.2.2 + 1)
  else st

/-- The full averaging loop of solax_LiveData_Average: av_Samples + 1
iterations of `solax_Average_step` starting from the all-zero accumulator
at the current index idx with valid-sample count 0. -/
def solax_Average_loop (liveData : List Solax_LiveData_t)
    (max_idx av_Samples idx : Nat) : Solax_LiveData_t × Nat × Nat :=
  (solax_Average_step liveData max_idx)^[av_Samples + 1] (zero_LiveData, idx, 0)

/-- solax_LiveData_Average (solaxd.c lines 668-714), averaging part (the
quality-of-service computation over the whole buffer, lines 717-722, is
independent and not needed by the claims).  The loop
`for (i = 0; i <= arg_AV_Samples; i++)` runs av_Samples + 1 iterations
starting from the all-zero accumulator at the current index idx; afterwards
the nine summed fields are divided by cnt when cnt is nonzero.  (The C
loop counter is a uint8_t compared against the int arg_AV_Samples; the
model covers the terminating configurations av_Samples ≤ 254, which
includes the default 10.) -/
def solax_LiveData_Average (liveData : List Solax_LiveData_t)
    (idx max_idx av_Samples : Nat) : Solax_LiveData_t :=
  let r := solax_Average_loop liveData max_idx av_Samples idx
  let acc := r.1
  let cnt := r.2.2
  if cnt ≠ 0 then
    { acc with
      Temperature := acc.Temperature / (cnt : ℚ)
      DC1_Voltage := acc.DC1_Voltage / (cnt : ℚ)
      DC2_Voltage := acc.DC2_Voltage / (cnt : ℚ)
      DC1_Current := acc.DC1_Current / (cnt : ℚ)
      DC2_Current := acc.DC2_Current / (cnt : ℚ)
      AC_Current := acc.AC_Current / (cnt : ℚ)
      AC_Voltage := acc.AC_Voltage / (cnt : ℚ)
      Frequency := acc.Frequency / (cnt : ℚ)
      Power := acc.Power / (cnt : ℚ) }
  else acc

/-- The simulated broadcast reply rx_msg_1 (solaxd.c line 284): header +
14 serial bytes + checksum 0x05 0x75. -/
def rx_msg_1 : List Nat :=
  [0xAA, 0x55, 0x00, 0xFF, 0x01, 0x00, 0x10, 0x80, 0x0E, 0x31, 0x32, 0x33, 0x34,
   0x35, 0x36, 0x37, 0x37, 0x36, 0x35, 0x34, 0x33, 0x32, 0x31, 0x05, 0x75]

/-- The simulated live-data reply rx_msg_3 (solaxd.c line 286): 9 header
bytes, 50 payload bytes, checksum 0x07 0x9C. -/
def rx_msg_3 : List Nat :=
  [0xAA, 0x55, 0x00, 0x0A, 0x01, 0x00, 0x11, 0x82, 0x32, 0x00, 0x0B, 0x00, 0x01,
   0x06, 0xDD, 0x00, 0x00, 0x00, 0x1F, 0x00, 0x00, 0x00, 0x15, 0x09, 0x21, 0x13,
   0x87, 0x01, 0xE7, 0xFF, 0xFF, 0x00, 0x00, 0x12, 0xD3, 0x00, 0x00, 0x0A, 0x0F,
   0x00, 0x02, 0x00, 0x00, 0x00, 0x00, 0x00, 0x00, 0x00, 0x00, 0x00, 0x00, 0x00,
   0x00, 0x00, 0x00, 0x00, 0x00, 0x00, 0x00, 0x07, 0x9C]

/-- A fixed prior serial number value (any 14 bytes; the concrete theorems
only need some definite value for the global). -/
def serial0 : List Nat := List.replicate 14 0

/-- A concrete valid sample, used by the witnesses of the averaging
claims to populate history slots. -/
def validSample : Solax_LiveData_t :=
  { zero_LiveData with
    valid := true
    Temperature := 42
    Power := 100
    Energy_Today := 3 / 10
    Energy_Total := 5
    Status := 2
    ErrorBits := 4 }

/-- Claim C2 failing input: 11 bytes with a valid marker and declared
payload length 0xF7 = 247.  The C computes msgLen = (247 + 9) mod 256 = 0
in a uint8_t, so the length guard compares 2 > 11 and passes, and
solax_CalculateCRC is then called with dataLen = msgLen - 1 = 255, whose
uint8_t loop condition `i <= 255` holds forever. -/
def rx_badlen : List Nat := [0xAA, 0x55, 0, 0, 0, 0, 0, 0, 0xF7, 0, 0]

/-- A slot content carrying previously captured nonzero monotonic fields
(Energy_Total 123.4 kWh, Runtime_Total 777 h), for claim C8. -/
def prev_nonzero : Solax_LiveData_t :=
  { zero_LiveData with valid := true, Energy_Total := 1234 / 10, Runtime_Total := 777 }

/-- A wire-valid live-data reply whose raw Energy_Total and Runtime_Total
fields (payload bytes 22-25 and 26-29) are zero: a 50-byte all-zero
payload framed with a correct checksum, for claim C8. -/
def rx_zeroEnergy : List Nat :=
  solax_RS485_Send [0x00, 0x0A] [0x01, 0x00] 0x11 0x82 (List.replicate 50 0)

/-- Per-state consecutive-error threshold as claim C3 states it:
10 in AwaitingBroadcast, 3 in AwaitingAddressConfirm, 3 in AwaitingLiveData. -/
def claimC3_threshold : Solax_StateQuery_t → Nat
  | STATE_BROARDCAST => 10
  | STATE_INVERTER_ADDRESS => 3
  | STATE_QUERY_LIVE_DATA => 3

/-- Failure-transition target as claim C3 states it: AwaitingBroadcast to
AwaitingLiveData (not AwaitingAddressConfirm), AwaitingAddressConfirm to
AwaitingBroadcast, AwaitingLiveData to AwaitingBroadcast. -/
def claimC3_failTarget : Solax_StateQuery_t → Solax_StateQuery_t
  | STATE_BROARDCAST => STATE_QUERY_LIVE_DATA
  | STATE_INVERTER_ADDRESS => STATE_BROARDCAST
  | STATE_QUERY_LIVE_DATA => STATE_BROARDCAST

/-- Success-transition target as claim C3 states it: AwaitingBroadcast to
AwaitingAddressConfirm, AwaitingAddressConfirm to AwaitingLiveData,
AwaitingLiveData stays. -/
def claimC3_succTarget : Solax_StateQuery_t → Solax_StateQuery_t
  | STATE_BROARDCAST => STATE_INVERTER_ADDRESS
  | STATE_INVERTER_ADDRESS => STATE_QUERY_LIVE_DATA
  | STATE_QUERY_LIVE_DATA => STATE_QUERY_LIVE_DATA

/-- Transition table in the words of the AMENDED claim C3: a failing tick
increments the consecutive-error counter and, when it reaches the state
threshold, resets it and moves to the failure target; a successful tick
moves to the success target and resets the counter EXCEPT in
AwaitingLiveData, where a success leaves the counter unchanged (the
original claim said the counter is reset on every success, which the code
falsifies in that one state). -/
def claimC3_table (st : Solax_StateQuery_t) (c : Nat) (failure : Prop)
    [Decidable failure] : Solax_StateQuery_t × Nat :=
  if failure then
    if claimC3_threshold st ≤ c + 1 then (claimC3_failTarget st, 0) else (st, c + 1)
  else (claimC3_succTarget st, if st = STATE_QUERY_LIVE_DATA then c else 0)

/-- Telemetry decoding exactly as claim C5 words the table of spec 4.2:
each field is the big-endian read at the table offset times its scale
(1, 1/10 or 1/100); Status keeps the low byte, i.e. payload byte 31;
ErrorBits is assembled from the payload bytes in the reversed order
(49,48,47,46); valid is set on success. -/
def claimC5_tableDecode (Data : List Nat) : Solax_LiveData_t :=
  { valid := true
    Temperature := (word16be Data 0 : ℚ) * 1
    Energy_Today := (word16be Data 2 : ℚ) * (1 / 10)
    DC1_Voltage := (word16be Data 4 : ℚ) * (1 / 10)
    DC2_Voltage := (word16be Data 6 : ℚ) * (1 / 10)
    DC1_Current := (word16be Data 8 : ℚ) * (1 / 10)
    DC2_Current := (word16be Data 10 : ℚ) * (1 / 10)
    AC_Current := (word16be Data 12 : ℚ) * (1 / 10)
    AC_Voltage := (word16be Data 14 : ℚ) * (1 / 10)
    Frequency := (word16be Data 16 : ℚ) * (1 / 100)
    Power := (word16be Data 18 : ℚ) * 1
    Energy_Total := (word32be Data 22 : ℚ) * (1 / 10)
    Runtime_Total := (word32be Data 26 : ℚ) * 1
    Status := Data.getD 31 0
    ErrorBits :=
      Data.getD 49 0 * 2 ^ 24 + Data.getD 48 0 * 2 ^ 16 + Data.getD 47 0 * 256 +
        Data.getD 46 0 }

/-! ## Helper lemmas -/

theorem foldl_addMod (l : List Nat) :
    ∀ a : Nat, a < 65536 →
      l.foldl (fun chkSum b => (chkSum + b) % 65536) a = (a + l.sum) % 65536 := by
  induction l with
  | nil => intro a ha; simp [Nat.mod_eq_of_lt ha]
  | cons b t ih =>
    intro a ha
    simp only [List.foldl_cons, List.sum_cons]
    rw [ih ((a + b) % 65536) (Nat.mod_lt _ (by norm_num)), Nat.mod_add_mod,
      Nat.add_assoc]

theorem rangeMap_getD_take (d : List Nat) (n : Nat) (h : n ≤ d.length) :
    (List.range n).map (fun i => d.getD i 0) = d.take n := by
  induction n with
  | zero => simp
  | succ k ih =>
    have hk : k < d.length := by omega
    rw [List.range_succ, List.map_append, ih (by omega), List.take_succ]
    simp [List.getElem?_eq_getElem hk]

theorem solax_CalculateCRC_sum (data : List Nat) (n : Nat) (h : n + 1 ≤ data.length) :
    solax_CalculateCRC data n = (data.take (n + 1)).sum % 65536 := by
  unfold solax_CalculateCRC
  rw [rangeMap_getD_take data (n + 1) h, foldl_addMod _ 0 (by norm_num), Nat.zero_add]

theorem txBody_length {source destination : List Nat} (hs : source.length = 2)
    (hd : destination.length = 2) (controlCode functionCode : Nat) (data : List Nat) :
    (txBody source destination controlCode functionCode data).length = data.length + 9 := by
  simp only [txBody, List.length_cons, List.length_append, hs, hd]
  omega

theorem solax_RS485_Send_eq {source destination : List Nat} (hs : source.length = 2)
    (hd : destination.length = 2) (controlCode functionCode : Nat) (data : List Nat) :
    solax_RS485_Send source destination controlCode functionCode data =
      txBody source destination controlCode functionCode data ++
        [(txBody source destination controlCode functionCode data).sum % 65536 / 256,
         (txBody source destination controlCode functionCode data).sum % 65536 % 256] := by
  have hlen := txBody_length hs hd controlCode functionCode data
  have hcrc : solax_CalculateCRC (txBody source destination controlCode functionCode data)
      (data.length + 9 - 1) =
      (txBody source destination controlCode functionCode data).sum % 65536 := by
    rw [solax_CalculateCRC_sum _ _ (by omega),
      show data.length + 9 - 1 + 1 =
        (txBody source destination controlCode functionCode data).length by omega,
      List.take_length]
  simp only [solax_RS485_Send, hcrc]

/-- Claim C1: the frame checksum is the unsigned 16-bit sum modulo 65536 of
every byte of the frame from the 0xAA 0x55 marker through the last payload
byte inclusive, stored big-endian as the trailing two bytes; in particular
for the 23-byte broadcast-reply body of rx_msg_1 it equals 0x0575, matching
the trailing bytes 0x05 0x75. -/
theorem claim_C1 :
    (∀ (data : List Nat) (dataLen : Nat), dataLen + 1 ≤ data.length →
        solax_CalculateCRC data dataLen = (data.take (dataLen + 1)).sum % 65536) ∧
    (∀ (source destination : List Nat) (controlCode functionCode : Nat)
        (data : List Nat), source.length = 2 → destination.length = 2 →
        solax_RS485_Send source destination controlCode functionCode data =
          txBody source destination controlCode functionCode data ++
            [(txBody source destination controlCode functionCode data).sum % 65536 / 256,
             (txBody source destination controlCode functionCode data).sum % 65536 % 256]) ∧
    solax_CalculateCRC rx_msg_1 22 = 0x0575 ∧
    rx_msg_1.getD 23 0 = 0x05 ∧ rx_msg_1.getD 24 0 = 0x75 :=
  ⟨solax_CalculateCRC_sum,
   fun _ _ cc fc d hs hd => solax_RS485_Send_eq hs hd cc fc d,
   by decide, by decide, by decide⟩

/-- Witness for claim C1 at concrete inputs: the checksum-as-sum equation
instantiated on rx_msg_1 (23 summed bytes) and the send layout instantiated
on the broadcast query frame. -/
theorem claim_C1_witness :
    22 + 1 ≤ rx_msg_1.length ∧
    solax_CalculateCRC rx_msg_1 22 = (rx_msg_1.take 23).sum % 65536 ∧
    ([0x01, 0x00] : List Nat).length = 2 ∧
    solax_RS485_Send [0x01, 0x00] [0x00, 0x00] 0x10 0x00 [] =
      txBody [0x01, 0x00] [0x00, 0x00] 0x10 0x00 [] ++
        [(txBody [0x01, 0x00] [0x00, 0x00] 0x10 0x00 []).sum % 65536 / 256,
         (txBody [0x01, 0x00] [0x00, 0x00] 0x10 0x00 []).sum % 65536 % 256] :=
  ⟨by decide, claim_C1.1 rx_msg_1 22 (by decide), by decide,
   claim_C1.2.1 [0x01, 0x00] [0x00, 0x00] 0x10 0x00 [] (by decide) (by decide)⟩

/-- Claim C2 (code-bug evidence): on the 11-byte input rx_badlen with
declared payload length 247 the claim (and the guard of the source) demand
ERR_INVALID_MSG, since the implied total frame length 9 + 247 + 2 exceeds
the 11 bytes available; but the uint8_t computation msgLen = 247 + 9 wraps
to 0, the guard passes, and the C then calls solax_CalculateCRC with
dataLen = 255, whose uint8_t loop never terminates — modelled as `none`,
i.e. the decoder has no defined result, in particular not the Malformed
classification the claim requires. -/
theorem claim_C2 :
    solax_RS485_Receive rx_badlen = none ∧
    rx_badlen.length = 11 ∧
    9 + rx_badlen.getD 8 0 + 2 > rx_badlen.length := by decide

theorem online_stateQuery (s : QueryHandleState) :
    (solax_QueryHandle_online s).stateQuery = s.stateQuery := by
  unfold solax_QueryHandle_online
  split_ifs <;> rfl

theorem online_countError (s : QueryHandleState) :
    (solax_QueryHandle_online s).countError = s.countError := by
  unfold solax_QueryHandle_online
  split_ifs <;> rfl

/-- Claim C3 (amended): the query state machine starts in AwaitingLiveData;
a failing tick increments the single consecutive-error counter and, when it
reaches the state threshold (10 in AwaitingBroadcast, 3 elsewhere), resets
it and transitions (Broadcast to LiveData, AddressConfirm to Broadcast,
LiveData to Broadcast); a successful tick transitions per the table
(Broadcast to AddressConfirm capturing the serial, AddressConfirm to
LiveData, LiveData stays) and resets the counter EXCEPT in AwaitingLiveData,
where a success leaves the error counter unchanged.  The last conjunct
shows the serial capture on the sample broadcast reply rx_msg_1. -/
theorem claim_C3 :
    queryHandleInit.stateQuery = STATE_QUERY_LIVE_DATA ∧
    (∀ (s : QueryHandleState) (e : Solax_ErrorQuery_t),
        ((solax_QueryHandle_update s e).stateQuery,
         (solax_QueryHandle_update s e).countError) =
          claimC3_table s.stateQuery s.countError (e ≠ ERR_NONE)) ∧
    solax_ReceiveQuery STATE_BROARDCAST serial0 zero_LiveData rx_msg_1 =
      some (ERR_NONE, zero_LiveData,
        [0x31, 0x32, 0x33, 0x34, 0x35, 0x36, 0x37, 0x37, 0x36, 0x35, 0x34, 0x33,
         0x32, 0x31]) := by
  refine ⟨rfl, ?_, by decide⟩
  intro s e
  obtain ⟨st, c, t, onl⟩ := s
  cases st <;> cases e <;>
    simp only [solax_QueryHandle_update, solax_QueryHandle_switch, online_stateQuery,
      online_countError, claimC3_table, claimC3_threshold, claimC3_failTarget,
      claimC3_succTarget, ne_eq, not_false_iff, not_true, if_true, if_false,
      ge_iff_le, Prod.mk.injEq] <;>
    split_ifs <;> simp_all

/-- Counterexample to claim C3 as stated: the claim says every successful
tick resets the consecutive-error counter, but a success in
AwaitingLiveData with the counter at 2 leaves it at 2 (solaxd.c lines
633-637 only reset the online timeout there). -/
theorem claim_C3_counterexample :
    (solax_QueryHandle_update
        { stateQuery := STATE_QUERY_LIVE_DATA, countError := 2,
          timeoutInverterOnline := 30, solax_InverterOnline := false }
        ERR_NONE).countError ≠ 0 := by decide

theorem switch_online_eq (s : QueryHandleState) (e : Solax_ErrorQuery_t) :
    (solax_QueryHandle_switch s e).solax_InverterOnline = s.solax_InverterOnline := by
  obtain ⟨st, c, t, onl⟩ := s
  cases st <;> cases e <;>
    simp only [solax_QueryHandle_switch] <;> split_ifs <;> rfl

theorem switch_timeout_eq (s : QueryHandleState) (e : Solax_ErrorQuery_t)
    (h : e ≠ ERR_NONE ∨ s.stateQuery ≠ STATE_QUERY_LIVE_DATA) :
    (solax_QueryHandle_switch s e).timeoutInverterOnline = s.timeoutInverterOnline := by
  obtain ⟨st, c, t, onl⟩ := s
  cases st <;> cases e <;> simp_all [solax_QueryHandle_switch] <;> split_ifs <;> rfl

theorem switch_live_success (s : QueryHandleState)
    (h : s.stateQuery = STATE_QUERY_LIVE_DATA) :
    solax_QueryHandle_switch s ERR_NONE = { s with timeoutInverterOnline := 0 } := by
  obtain ⟨st, c, t, onl⟩ := s
  simp only at h
  subst h
  simp [solax_QueryHandle_switch]

theorem online_offline_noflip (s : QueryHandleState)
    (h : s.solax_InverterOnline = false) (ht : s.timeoutInverterOnline ≠ 0) :
    solax_QueryHandle_online s = s := by
  unfold solax_QueryHandle_online
  rw [if_neg (by simp [h]), if_neg ht]

theorem online_offline_flip (s : QueryHandleState)
    (h : s.solax_InverterOnline = false) (ht : s.timeoutInverterOnline = 0) :
    solax_QueryHandle_online s = { s with solax_InverterOnline := true } := by
  unfold solax_QueryHandle_online
  rw [if_neg (by simp [h]), if_pos ht]

theorem update_online_fail_proj (s : QueryHandleState) (e : Solax_ErrorQuery_t)
    (h : s.solax_InverterOnline = true) (he : e ≠ ERR_NONE) :
    (solax_QueryHandle_update s e).timeoutInverterOnline = s.timeoutInverterOnline + 1 ∧
    ((solax_QueryHandle_update s e).solax_InverterOnline = true ↔
      s.timeoutInverterOnline + 1 < TIMEOUT_INVERTER_ONLINE) := by
  have h1 : (solax_QueryHandle_switch s e).solax_InverterOnline = true := by
    rw [switch_online_eq]; exact h
  have h2 : (solax_QueryHandle_switch s e).timeoutInverterOnline =
      s.timeoutInverterOnline := switch_timeout_eq s e (Or.inl he)
  unfold solax_QueryHandle_update solax_QueryHandle_online
  rw [if_pos h1]
  by_cases hc : (solax_QueryHandle_switch s e).timeoutInverterOnline + 1 ≥
      TIMEOUT_INVERTER_ONLINE
  · rw [if_pos hc]
    rw [h2] at hc
    refine ⟨congrArg (fun x => x + 1) h2, ?_⟩
    constructor
    · intro hx
      exact absurd hx (by exact fun hx => Bool.noConfusion hx)
    · intro hlt
      exact absurd hlt (by omega)
  · rw [if_neg hc]
    rw [h2] at hc
    refine ⟨congrArg (fun x => x + 1) h2, ?_⟩
    constructor
    · intro _
      omega
    · intro _
      exact h1

theorem offline_frozen (es : List Solax_ErrorQuery_t) :
    ∀ s : QueryHandleState, s.solax_InverterOnline = false →
      s.timeoutInverterOnline ≠ 0 → (∀ e ∈ es, e ≠ ERR_NONE) →
      (es.foldl solax_QueryHandle_update s).solax_InverterOnline = false ∧
      (es.foldl solax_QueryHandle_update s).timeoutInverterOnline =
        s.timeoutInverterOnline := by
  induction es with
  | nil => intro s h ht _; exact ⟨h, rfl⟩
  | cons e es ih =>
    intro s h ht hall
    have he : e ≠ ERR_NONE := hall e (by simp)
    have h1 : (solax_QueryHandle_switch s e).solax_InverterOnline = false := by
      rw [switch_online_eq]; exact h
    have h2 : (solax_QueryHandle_switch s e).timeoutInverterOnline =
        s.timeoutInverterOnline := switch_timeout_eq s e (Or.inl he)
    have h3 : solax_QueryHandle_update s e = solax_QueryHandle_switch s e := by
      unfold solax_QueryHandle_update
      exact online_offline_noflip _ h1 (by rw [h2]; exact ht)
    rw [List.foldl_cons, h3]
    obtain ⟨ha, hb⟩ := ih (solax_QueryHandle_switch s e) h1 (by rw [h2]; exact ht)
      (fun x hx => hall x (by simp [hx]))
    exact ⟨ha, hb.trans h2⟩

theorem online_failRun (es : List Solax_ErrorQuery_t) :
    ∀ s : QueryHandleState, s.solax_InverterOnline = true →
      s.timeoutInverterOnline < TIMEOUT_INVERTER_ONLINE →
      (∀ e ∈ es, e ≠ ERR_NONE) →
      ((es.foldl solax_QueryHandle_update s).solax_InverterOnline = true ↔
        s.timeoutInverterOnline + es.length < TIMEOUT_INVERTER_ONLINE) := by
  induction es with
  | nil => intro s h ht _; simp [h]; omega
  | cons e es ih =>
    intro s h ht hall
    have he : e ≠ ERR_NONE := hall e (by simp)
    obtain ⟨hp1, hp2⟩ := update_online_fail_proj s e h he
    rw [List.foldl_cons]
    by_cases hc : s.timeoutInverterOnline + 1 < TIMEOUT_INVERTER_ONLINE
    · have hon : (solax_QueryHandle_update s e).solax_InverterOnline = true := hp2.mpr hc
      rw [ih (solax_QueryHandle_update s e) hon (by rw [hp1]; exact hc)
        (fun x hx => hall x (by simp [hx])), hp1]
      simp only [List.length_cons]
      omega
    · have hoff : (solax_QueryHandle_update s e).solax_InverterOnline = false := by
        cases hx : (solax_QueryHandle_update s e).solax_InverterOnline
        · rfl
        · exact absurd (hp2.mp hx) hc
      obtain ⟨hfa, _⟩ := offline_frozen es (solax_QueryHandle_update s e) hoff
        (by rw [hp1]; omega) (fun x hx => hall x (by simp [hx]))
      rw [hfa]
      simp only [List.length_cons]
      constructor
      · intro hfalse; exact absurd hfalse (by simp)
      · intro hlt; omega

/-- Claim C4 (amended): each tick, after the state transition, the online
status update behaves as follows.  (1) While offline, a successful
live-data tick resets the timeout counter to 0 and the flag becomes online
at the end of that same tick (not one tick later).  (2) While offline, any
other tick leaves the counter unmodified and the flag becomes online
exactly when the counter is 0.  (3) While online, a successful live-data
tick leaves the flag online with the counter at 1 (reset to 0 and then
incremented within the same tick).  (4) While online with counter value t
below 30, a run of consecutive failed/absent ticks keeps the flag online
exactly as long as t plus the run length stays below 30 — so the flag
flips to false after 30 consecutive failed ticks following the tick that
turned it online (t = 0), but after 29 such ticks following any later
success (t = 1), not uniformly after 30 as the original claim stated. -/
theorem claim_C4 :
    (∀ s : QueryHandleState, s.solax_InverterOnline = false →
        s.stateQuery = STATE_QUERY_LIVE_DATA →
        (solax_QueryHandle_update s ERR_NONE).solax_InverterOnline = true ∧
        (solax_QueryHandle_update s ERR_NONE).timeoutInverterOnline = 0) ∧
    (∀ (s : QueryHandleState) (e : Solax_ErrorQuery_t),
        s.solax_InverterOnline = false →
        (e ≠ ERR_NONE ∨ s.stateQuery ≠ STATE_QUERY_LIVE_DATA) →
        (solax_QueryHandle_update s e).timeoutInverterOnline =
          s.timeoutInverterOnline ∧
        ((solax_QueryHandle_update s e).solax_InverterOnline = true ↔
          s.timeoutInverterOnline = 0)) ∧
    (∀ s : QueryHandleState, s.solax_InverterOnline = true →
        s.stateQuery = STATE_QUERY_LIVE_DATA →
        (solax_QueryHandle_update s ERR_NONE).timeoutInverterOnline = 1 ∧
        (solax_QueryHandle_update s ERR_NONE).solax_InverterOnline = true) ∧
    (∀ (s : QueryHandleState) (es : List Solax_ErrorQuery_t),
        s.solax_InverterOnline = true →
        s.timeoutInverterOnline < TIMEOUT_INVERTER_ONLINE →
        (∀ e ∈ es, e ≠ ERR_NONE) →
        ((es.foldl solax_QueryHandle_update s).solax_InverterOnline = true ↔
          s.timeoutInverterOnline + es.length < TIMEOUT_INVERTER_ONLINE)) := by
  refine ⟨?_, ?_, ?_, fun s es h ht hall => online_failRun es s h ht hall⟩
  · intro s h hst
    have hsw := switch_live_success s hst
    unfold solax_QueryHandle_update
    rw [hsw, online_offline_flip _ (by simp [h]) (by simp)]
    exact ⟨rfl, rfl⟩
  · intro s e h hor
    have h1 : (solax_QueryHandle_switch s e).solax_InverterOnline = false := by
      rw [switch_online_eq]; exact h
    have h2 : (solax_QueryHandle_switch s e).timeoutInverterOnline =
        s.timeoutInverterOnline := switch_timeout_eq s e hor
    unfold solax_QueryHandle_update
    by_cases ht : s.timeoutInverterOnline = 0
    · rw [online_offline_flip _ h1 (by rw [h2]; exact ht)]
      exact ⟨h2, by simp [ht]⟩
    · rw [online_offline_noflip _ h1 (by rw [h2]; exact ht)]
      refine ⟨h2, ?_⟩
      rw [h1]
      constructor
      · intro hfalse; exact absurd hfalse (by simp)
      · intro h0; exact absurd h0 ht
  · intro s h hst
    have hsw := switch_live_success s hst
    unfold solax_QueryHandle_update solax_QueryHandle_online
    rw [hsw]
    have hcond : ¬((({ s with timeoutInverterOnline := 0 } :
        QueryHandleState).timeoutInverterOnline + 1) ≥ TIMEOUT_INVERTER_ONLINE) := by
      simp [TIMEOUT_INVERTER_ONLINE]
    rw [if_pos (by simp [h]), if_neg hcond]
    exact ⟨rfl, by simp [h]⟩

/-- Counterexample to claim C4 as stated: starting from the boot state,
two successful live-data ticks (the second while already online leaves the
timeout counter at 1), followed by only 29 consecutive absent-data ticks,
already drive the flag offline — the claim requires 30 consecutive failed
ticks while previously online before the flag flips to false (and indeed
after 28 such ticks it is still online). -/
theorem claim_C4_counterexample :
    (([ERR_NONE, ERR_NONE] ++ List.replicate 28 ERR_NO_DATA).foldl
        solax_QueryHandle_update queryHandleInit).solax_InverterOnline = true ∧
    (([ERR_NONE, ERR_NONE] ++ List.replicate 29 ERR_NO_DATA).foldl
        solax_QueryHandle_update queryHandleInit).solax_InverterOnline = false := by
  decide

/-- Witness for claim C4: part (1) applied at the boot state (first
live-data success turns the flag online within that tick), and part (4)
applied at an online state with counter 1 and a 29-tick failure run,
showing the flag no longer online. -/
theorem claim_C4_witness :
    (solax_QueryHandle_update queryHandleInit ERR_NONE).solax_InverterOnline = true ∧
    ¬(((List.replicate 29 ERR_NO_DATA).foldl solax_QueryHandle_update
        { stateQuery := STATE_QUERY_LIVE_DATA, countError := 0,
          timeoutInverterOnline := 1,
          solax_InverterOnline := true }).solax_InverterOnline = true) := by
  have h := claim_C4
  refine ⟨(h.1 queryHandleInit rfl rfl).1, ?_⟩
  intro hc
  have h4 := h.2.2.2
    { stateQuery := STATE_QUERY_LIVE_DATA, countError := 0,
      timeoutInverterOnline := 1, solax_InverterOnline := true }
    (List.replicate 29 ERR_NO_DATA) rfl
    (by norm_num [TIMEOUT_INVERTER_ONLINE])
    (by intro e he; rw [List.eq_of_mem_replicate he]; decide)
  have h5 := h4.mp hc
  simp [TIMEOUT_INVERTER_ONLINE] at h5

theorem getD_lt_256 : ∀ (l : List Nat), (∀ b ∈ l, b < 256) → ∀ i : Nat, l.getD i 0 < 256
  | [], _, _ => by simp
  | b :: t, hb, 0 => by simpa using hb b (by simp)
  | b :: t, hb, (i + 1) => by
      simpa using getD_lt_256 t (fun x hx => hb x (by simp [hx])) i

/-- Claim C5: for every byte-valued payload, the telemetry decoder reads
each field big-endian at the table offset and applies its scale
(Temperature 0 x1, Energy_Today 2 x0.1, DC1/DC2 voltages 4/6 x0.1, DC1/DC2
currents 8/10 x0.1, AC current 12 x0.1, AC voltage 14 x0.1, Frequency 16
x0.01, Power 18 x1, Energy_Total 22 width 4 x0.1, Runtime_Total 26 width 4
x1, Status 30 keeping the low byte), except ErrorBits, assembled from
bytes (49,48,47,46) reversed; on success valid = true.  Proved as equality
of the source decoder with the decoder written from the words of the
claim. -/
theorem claim_C5 (Data : List Nat) (hb : ∀ b ∈ Data, b < 256) :
    solax_DecodeLiveData Data = claimC5_tableDecode Data := by
  have h31 : Data.getD 31 0 < 256 := getD_lt_256 Data hb 31
  have hET : (if word32be Data 22 ≠ 0 then (word32be Data 22 : ℚ) * (1 / 10) else 0) =
      (word32be Data 22 : ℚ) * (1 / 10) := by
    split_ifs with h
    · rfl
    · push_neg at h
      simp [h]
  have hRT : (if word32be Data 26 ≠ 0 then (word32be Data 26 : ℚ) else 0) =
      (word32be Data 26 : ℚ) * 1 := by
    split_ifs with h
    · exact (mul_one _).symm
    · push_neg at h
      simp [h]
  have hST : word16be Data 30 % 256 = Data.getD 31 0 := by
    have h31' : Data.getD (30 + 1) 0 = Data.getD 31 0 := rfl
    simp only [word16be, h31']
    omega
  unfold solax_DecodeLiveData claimC5_tableDecode
  rw [hET, hRT, hST, mul_one (word16be Data 0 : ℚ), mul_one (word16be Data 18 : ℚ)]

/-- Witness for claim C5: the decoder equality instantiated at the payload
of the sample live-data frame rx_msg_3. -/
theorem claim_C5_witness :
    (∀ b ∈ rx_msg_3.drop 9, b < 256) ∧
    solax_DecodeLiveData (rx_msg_3.drop 9) = claimC5_tableDecode (rx_msg_3.drop 9) :=
  ⟨by decide, claim_C5 (rx_msg_3.drop 9) (by decide)⟩

/-- Counterexample to claim C6 as stated: decoding the literal sample
frame rx_msg_3 does NOT yield Temperature = 50 nor Energy_Today = 1.1;
the payload starts at struct byte 9, so the temperature raw value is
0x000B = 11 (the 0x32 byte the claim read as temperature is the DataLength
field) and the Energy_Today raw value is 0x0001, i.e. 0.1 kWh. -/
theorem claim_C6_counterexample :
    (solax_DecodeLiveData (rx_msg_3.drop 9)).Temperature ≠ 50 ∧
    (solax_DecodeLiveData (rx_msg_3.drop 9)).Energy_Today ≠ 11 / 10 := by
  have h0 : word16be (rx_msg_3.drop 9) 0 = 11 := by decide
  have h2 : word16be (rx_msg_3.drop 9) 2 = 1 := by decide
  constructor
  · show ((word16be (rx_msg_3.drop 9) 0 : Nat) : ℚ) ≠ 50
    rw [h0]
    norm_num
  · show ((word16be (rx_msg_3.drop 9) 2 : Nat) : ℚ) * (1 / 10) ≠ 11 / 10
    rw [h2]
    norm_num

/-- Claim C6 (amended): feeding the literal sample live-data frame
rx_msg_3 through the live-data receive path succeeds (checksum and
control/function codes pass) and the decoded sample has
Temperature = 11 (raw 0x000B), Energy_Today = 0.1 kWh (raw 0x0001),
Power = 487 W (raw 0x01E7) and valid = true. -/
theorem claim_C6 :
    solax_ReceiveQuery STATE_QUERY_LIVE_DATA serial0 zero_LiveData rx_msg_3 =
      some (ERR_NONE, solax_DecodeLiveData (rx_msg_3.drop 9), serial0) ∧
    (solax_DecodeLiveData (rx_msg_3.drop 9)).Temperature = 11 ∧
    (solax_DecodeLiveData (rx_msg_3.drop 9)).Energy_Today = 1 / 10 ∧
    (solax_DecodeLiveData (rx_msg_3.drop 9)).Power = 487 ∧
    (solax_DecodeLiveData (rx_msg_3.drop 9)).valid = true := by
  have h0 : word16be (rx_msg_3.drop 9) 0 = 11 := by decide
  have h2 : word16be (rx_msg_3.drop 9) 2 = 1 := by decide
  have h18 : word16be (rx_msg_3.drop 9) 18 = 487 := by decide
  refine ⟨rfl, ?_, ?_, ?_, rfl⟩
  · show ((word16be (rx_msg_3.drop 9) 0 : Nat) : ℚ) = 11
    rw [h0]
    norm_num
  · show ((word16be (rx_msg_3.drop 9) 2 : Nat) : ℚ) * (1 / 10) = 1 / 10
    rw [h2]
    norm_num
  · show ((word16be (rx_msg_3.drop 9) 18 : Nat) : ℚ) = 487
    rw [h18]
    norm_num

/-- Claim C8 (code-bug evidence): a previously captured sample with
nonzero Energy_Total 123.4 kWh and Runtime_Total 777 h is NOT preserved
when a checksum-valid live-data frame with all-zero raw Energy_Total and
Runtime_Total fields arrives: solax_ReceiveQuery zeroes the slot at entry
(solaxd.c line 428), so its result does not depend on the previous slot
content at all, and the decoded sample carries Energy_Total = 0 and
Runtime_Total = 0 — the write-if-nonzero guards at lines 537 and 541 never
have anything to preserve. -/
theorem claim_C8 :
    prev_nonzero.Energy_Total = 1234 / 10 ∧
    prev_nonzero.Runtime_Total = 777 ∧
    word32be (rx_zeroEnergy.drop 9) 22 = 0 ∧
    word32be (rx_zeroEnergy.drop 9) 26 = 0 ∧
    solax_ReceiveQuery STATE_QUERY_LIVE_DATA serial0 prev_nonzero rx_zeroEnergy =
      solax_ReceiveQuery STATE_QUERY_LIVE_DATA serial0 zero_LiveData rx_zeroEnergy ∧
    Option.map (fun r => r.2.1.Energy_Total)
      (solax_ReceiveQuery STATE_QUERY_LIVE_DATA serial0 prev_nonzero rx_zeroEnergy) =
      some 0 ∧
    Option.map (fun r => r.2.1.Runtime_Total)
      (solax_ReceiveQuery STATE_QUERY_LIVE_DATA serial0 prev_nonzero rx_zeroEnergy) =
      some 0 :=
  ⟨rfl, rfl, by decide, by decide, rfl, rfl, rfl⟩

theorem if_lt_eq_max {α : Type} [LinearOrder α] (a b : α) :
    (if a < b then b else a) = max a b := by
  rcases le_or_lt b a with h | h
  · rw [if_neg (not_lt.mpr h), max_eq_left h]
  · rw [if_pos h, max_eq_right h.le]

theorem average_cnt_zero_acc (liveData : List Solax_LiveData_t) (max_idx : Nat) :
    ∀ (n : Nat) (st : Solax_LiveData_t × Nat × Nat),
      (st.2.2 = 0 → st.1 = zero_LiveData) →
      ((solax_Average_step liveData max_idx)^[n] st).2.2 = 0 →
      ((solax_Average_step liveData max_idx)^[n] st).1 = zero_LiveData := by
  intro n
  induction n with
  | zero => intro st h; exact h
  | succ k ih =>
    intro st h
    rw [Function.iterate_succ_apply]
    apply ih
    unfold solax_Average_step
    by_cases hv : (liveData.getD st.2.1 zero_LiveData).valid = true
    · rw [if_pos hv]
      intro hc
      exact absurd hc (Nat.succ_ne_zero _)
    · rw [if_neg hv]
      exact h

/-- Claim C10: if the sample at the current history index (the one written
this tick) is invalid, the backward walk of the windowed average never
advances past it, the inspected-valid counter stays 0 and the entire
published averaged snapshot is the all-zero sample, regardless of how many
valid samples the rest of the history contains. -/
theorem claim_C10 (liveData : List Solax_LiveData_t) (idx max_idx av_Samples : Nat)
    (h : (liveData.getD idx zero_LiveData).valid = false) :
    solax_LiveData_Average liveData idx max_idx av_Samples = zero_LiveData := by
  have hfix : solax_Average_step liveData max_idx (zero_LiveData, idx, 0) =
      (zero_LiveData, idx, 0) := by
    unfold solax_Average_step
    dsimp only
    rw [if_neg (by rw [h]; exact Bool.false_ne_true)]
  unfold solax_LiveData_Average solax_Average_loop
  rw [Function.iterate_fixed hfix]
  rfl

/-- Witness for claim C10: a 100-slot history full of valid samples except
the current slot 7; the published average collapses to the all-zero
sample. -/
theorem claim_C10_witness :
    ((((List.replicate 100 validSample).set 7 zero_LiveData).getD 7
        zero_LiveData).valid = false) ∧
    solax_LiveData_Average ((List.replicate 100 validSample).set 7 zero_LiveData)
      7 99 10 = zero_LiveData :=
  ⟨by decide, claim_C10 _ 7 99 10 (by decide)⟩

/-- Claim C7: the windowed average runs av_Samples + 1 steps backward from
the current index; a step seeing an invalid slot changes nothing (the walk
pointer is not advanced, so the same invalid slot is re-inspected on every
remaining step); a step seeing a valid slot adds the nine summed fields,
ORs ErrorBits, takes running maxima of Energy_Today, Energy_Total,
Runtime_Total and Status, steps the pointer backward with wraparound and
increments the valid-sample counter; finally each summed field is divided
by the counter when it is nonzero, and when it is zero the result is the
all-zero sample (nothing was accumulated). -/
theorem claim_C7 :
    (∀ (liveData : List Solax_LiveData_t) (max_idx : Nat)
        (st : Solax_LiveData_t × Nat × Nat) (n : Nat),
        (liveData.getD st.2.1 zero_LiveData).valid = false →
        (solax_Average_step liveData max_idx)^[n] st = st) ∧
    (∀ (liveData : List Solax_LiveData_t) (max_idx : Nat)
        (acc : Solax_LiveData_t) (idx cnt : Nat),
        (liveData.getD idx zero_LiveData).valid = true →
        solax_Average_step liveData max_idx (acc, idx, cnt) =
          (solax_Average_accum acc (liveData.getD idx zero_LiveData),
           if idx = 0 then max_idx else idx - 1, cnt + 1)) ∧
    (∀ acc s : Solax_LiveData_t,
        (solax_Average_accum acc s).Temperature = acc.Temperature + s.Temperature ∧
        (solax_Average_accum acc s).DC1_Voltage = acc.DC1_Voltage + s.DC1_Voltage ∧
        (solax_Average_accum acc s).DC2_Voltage = acc.DC2_Voltage + s.DC2_Voltage ∧
        (solax_Average_accum acc s).DC1_Current = acc.DC1_Current + s.DC1_Current ∧
        (solax_Average_accum acc s).DC2_Current = acc.DC2_Current + s.DC2_Current ∧
        (solax_Average_accum acc s).AC_Current = acc.AC_Current + s.AC_Current ∧
        (solax_Average_accum acc s).AC_Voltage = acc.AC_Voltage + s.AC_Voltage ∧
        (solax_Average_accum acc s).Frequency = acc.Frequency + s.Frequency ∧
        (solax_Average_accum acc s).Power = acc.Power + s.Power ∧
        (solax_Average_accum acc s).ErrorBits = acc.ErrorBits ||| s.ErrorBits ∧
        (solax_Average_accum acc s).Energy_Today = max acc.Energy_Today s.Energy_Today ∧
        (solax_Average_accum acc s).Energy_Total = max acc.Energy_Total s.Energy_Total ∧
        (solax_Average_accum acc s).Runtime_Total =
          max acc.Runtime_Total s.Runtime_Total ∧
        (solax_Average_accum acc s).Status = max acc.Status s.Status) ∧
    (∀ (liveData : List Solax_LiveData_t) (idx max_idx av_Samples : Nat),
        (solax_Average_loop liveData max_idx av_Samples idx).2.2 = 0 →
        solax_LiveData_Average liveData idx max_idx av_Samples = zero_LiveData) ∧
    (∀ (liveData : List Solax_LiveData_t) (idx max_idx av_Samples : Nat),
        (solax_Average_loop liveData max_idx av_Samples idx).2.2 ≠ 0 →
        (solax_LiveData_Average liveData idx max_idx av_Samples).Temperature =
          (solax_Average_loop liveData max_idx av_Samples idx).1.Temperature /
            ((solax_Average_loop liveData max_idx av_Samples idx).2.2 : ℚ) ∧
        (solax_LiveData_Average liveData idx max_idx av_Samples).DC1_Voltage =
          (solax_Average_loop liveData max_idx av_Samples idx).1.DC1_Voltage /
            ((solax_Average_loop liveData max_idx av_Samples idx).2.2 : ℚ) ∧
        (solax_LiveData_Average liveData idx max_idx av_Samples).DC2_Voltage =
          (solax_Average_loop liveData max_idx av_Samples idx).1.DC2_Voltage /
            ((solax_Average_loop liveData max_idx av_Samples idx).2.2 : ℚ) ∧
        (solax_LiveData_Average liveData idx max_idx av_Samples).DC1_Current =
          (solax_Average_loop liveData max_idx av_Samples idx).1.DC1_Current /
            ((solax_Average_loop liveData max_idx av_Samples idx).2.2 : ℚ) ∧
        (solax_LiveData_Average liveData idx max_idx av_Samples).DC2_Current =
          (solax_Average_loop liveData max_idx av_Samples idx).1.DC2_Current /
            ((solax_Average_loop liveData max_idx av_Samples idx).2.2 : ℚ) ∧
        (solax_LiveData_Average liveData idx max_idx av_Samples).AC_Current =
          (solax_Average_loop liveData max_idx av_Samples idx).1.AC_Current /
            ((solax_Average_loop liveData max_idx av_Samples idx).2.2 : ℚ) ∧
        (solax_LiveData_Average liveData idx max_idx av_Samples).AC_Voltage =
          (solax_Average_loop liveData max_idx av_Samples idx).1.AC_Voltage /
            ((solax_Average_loop liveData max_idx av_Samples idx).2.2 : ℚ) ∧
        (solax_LiveData_Average liveData idx max_idx av_Samples).Frequency =
          (solax_Average_loop liveData max_idx av_Samples idx).1.Frequency /
            ((solax_Average_loop liveData max_idx av_Samples idx).2.2 : ℚ) ∧
        (solax_LiveData_Average liveData idx max_idx av_Samples).Power =
          (solax_Average_loop liveData max_idx av_Samples idx).1.Power /
            ((solax_Average_loop liveData max_idx av_Samples idx).2.2 : ℚ) ∧
        (solax_LiveData_Average liveData idx max_idx av_Samples).Energy_Today =
          (solax_Average_loop liveData max_idx av_Samples idx).1.Energy_Today ∧
        (solax_LiveData_Average liveData idx max_idx av_Samples).Energy_Total =
          (solax_Average_loop liveData max_idx av_Samples idx).1.Energy_Total ∧
        (solax_LiveData_Average liveData idx max_idx av_Samples).Runtime_Total =
          (solax_Average_loop liveData max_idx av_Samples idx).1.Runtime_Total ∧
        (solax_LiveData_Average liveData idx max_idx av_Samples).Status =
          (solax_Average_loop liveData max_idx av_Samples idx).1.Status ∧
        (solax_LiveData_Average liveData idx max_idx av_Samples).ErrorBits =
          (solax_Average_loop liveData max_idx av_Samples idx).1.ErrorBits) := by
  refine ⟨?_, ?_, ?_, ?_, ?_⟩
  · intro liveData max_idx st n h
    refine Function.iterate_fixed ?_ n
    unfold solax_Average_step
    rw [if_neg (by rw [h]; exact Bool.false_ne_true)]
  · intro liveData max_idx acc idx cnt h
    unfold solax_Average_step
    dsimp only
    rw [if_pos h]
  · intro acc s
    unfold solax_Average_accum
    refine ⟨rfl, rfl, rfl, rfl, rfl, rfl, rfl, rfl, rfl, rfl,
      if_lt_eq_max _ _, if_lt_eq_max _ _, if_lt_eq_max _ _, if_lt_eq_max _ _⟩
  · intro liveData idx max_idx av_Samples h
    have hacc : (solax_Average_loop liveData max_idx av_Samples idx).1 =
        zero_LiveData :=
      average_cnt_zero_acc liveData max_idx (av_Samples + 1) (zero_LiveData, idx, 0)
        (fun _ => rfl) h
    unfold solax_LiveData_Average
    rw [if_neg (by simp [h])]
    exact hacc
  · intro liveData idx max_idx av_Samples h
    unfold solax_LiveData_Average
    rw [if_pos h]
    exact ⟨rfl, rfl, rfl, rfl, rfl, rfl, rfl, rfl, rfl, rfl, rfl, rfl, rfl, rfl⟩

/-- Witness for claim C7: the stall part applied to a history whose
inspected slot 1 is invalid (eleven steps change nothing), and the
count-zero part applied to a single-slot invalid history. -/
theorem claim_C7_witness :
    (([validSample, zero_LiveData, validSample].getD 1 zero_LiveData).valid = false ∧
     (solax_Average_step [validSample, zero_LiveData, validSample] 2)^[11]
        (zero_LiveData, 1, 0) = (zero_LiveData, 1, 0)) ∧
    ((solax_Average_loop [zero_LiveData] 0 10 0).2.2 = 0 ∧
     solax_LiveData_Average [zero_LiveData] 0 0 10 = zero_LiveData) :=
  ⟨⟨by decide, claim_C7.1 [validSample, zero_LiveData, validSample] 2
      (zero_LiveData, 1, 0) 11 (by decide)⟩,
   ⟨by decide, claim_C7.2.2.2.1 [zero_LiveData] 0 0 10 (by decide)⟩⟩

theorem solax_roundtrip (source destination : List Nat)
    (controlCode functionCode : Nat) (data : List Nat) (hs : source.length = 2)
    (hd : destination.length = 2) (h98 : data.length ≤ 98) :
    solax_RS485_Receive
        (solax_RS485_Send source destination controlCode functionCode data) =
      some ERR_NONE ∧
    (solax_RS485_Send source destination controlCode functionCode data).length =
      data.length + 11 := by
  obtain ⟨s0, s1, rfl⟩ := List.length_eq_two.mp hs
  obtain ⟨d0, d1, rfl⟩ := List.length_eq_two.mp hd
  have hsend := solax_RS485_Send_eq hs hd controlCode functionCode data
  have hblen : (txBody [s0, s1] [d0, d1] controlCode functionCode data).length =
      data.length + 9 :=
    txBody_length hs hd controlCode functionCode data
  have houtlen : (txBody [s0, s1] [d0, d1] controlCode functionCode data ++
      [(txBody [s0, s1] [d0, d1] controlCode functionCode data).sum % 65536 / 256,
       (txBody [s0, s1] [d0, d1] controlCode functionCode data).sum % 65536 % 256]).length
      = data.length + 11 := by
    rw [List.length_append, hblen]
    rfl
  have h8 : (txBody [s0, s1] [d0, d1] controlCode functionCode data ++
      [(txBody [s0, s1] [d0, d1] controlCode functionCode data).sum % 65536 / 256,
       (txBody [s0, s1] [d0, d1] controlCode functionCode data).sum % 65536 % 256]).getD
      8 0 = data.length := rfl
  have hmod : (data.length + 9) % 256 = data.length + 9 :=
    Nat.mod_eq_of_lt (by omega)
  have h9n : (txBody [s0, s1] [d0, d1] controlCode functionCode data ++
      [(txBody [s0, s1] [d0, d1] controlCode functionCode data).sum % 65536 / 256,
       (txBody [s0, s1] [d0, d1] controlCode functionCode data).sum % 65536 % 256]).getD
      (9 + data.length) 0 =
      (txBody [s0, s1] [d0, d1] controlCode functionCode data).sum % 65536 / 256 := by
    rw [List.getD_eq_getElem?_getD, List.getElem?_append_right (by rw [hblen]; omega),
      show 9 + data.length -
        (txBody [s0, s1] [d0, d1] controlCode functionCode data).length = 0 from by
        rw [hblen]; omega]
    rfl
  have h10n : (txBody [s0, s1] [d0, d1] controlCode functionCode data ++
      [(txBody [s0, s1] [d0, d1] controlCode functionCode data).sum % 65536 / 256,
       (txBody [s0, s1] [d0, d1] controlCode functionCode data).sum % 65536 % 256]).getD
      (10 + data.length) 0 =
      (txBody [s0, s1] [d0, d1] controlCode functionCode data).sum % 65536 % 256 := by
    rw [List.getD_eq_getElem?_getD, List.getElem?_append_right (by rw [hblen]; omega),
      show 10 + data.length -
        (txBody [s0, s1] [d0, d1] controlCode functionCode data).length = 1 from by
        rw [hblen]; omega]
    rfl
  have hcrc9 : solax_CalculateCRC (txBody [s0, s1] [d0, d1] controlCode functionCode
      data ++
      [(txBody [s0, s1] [d0, d1] controlCode functionCode data).sum % 65536 / 256,
       (txBody [s0, s1] [d0, d1] controlCode functionCode data).sum % 65536 % 256])
      (data.length + 9 - 1) =
      (txBody [s0, s1] [d0, d1] controlCode functionCode data).sum % 65536 := by
    rw [solax_CalculateCRC_sum _ _ (by rw [houtlen]; omega)]
    congr 1
    rw [show data.length + 9 - 1 + 1 = data.length + 9 from by omega, ← hblen,
      List.take_left]
  refine ⟨?_, by rw [hsend]; exact houtlen⟩
  rw [hsend]
  simp only [solax_RS485_Receive]
  rw [houtlen, h8, hmod]
  rw [if_neg (by omega : ¬(data.length + 11 = 0))]
  rw [if_neg (by
    push_neg
    exact ⟨by omega, rfl, rfl⟩)]
  rw [if_neg (by omega : ¬(data.length + 9 + 2 > data.length + 11))]
  rw [if_neg (by omega : ¬(98 < data.length))]
  rw [if_neg (by
    push_neg
    exact ⟨by rw [h9n, hcrc9], by rw [h10n, hcrc9]⟩)]

/-- Claim C9 (code-bug evidence): for every payload of at most 98 bytes
encoding succeeds, producing marker + header + payload followed by the
big-endian additive checksum (the produced frame is wire-valid: it decodes
back with ERR_NONE and has length payload + 11).  The C however has NO
failure path for oversized payloads: the last conjuncts evaluate the
transmit image the code attempts for a 99-byte payload — 110 bytes, more
than the 109-byte Solax_Message_t struct can hold, i.e. the checksum
stores at Data[99] and Data[100] run past the end of the 100-byte Data
array instead of failing as the claim requires. -/
theorem claim_C9 :
    (∀ (source destination : List Nat) (controlCode functionCode : Nat)
        (data : List Nat), source.length = 2 → destination.length = 2 →
        data.length ≤ 98 →
        solax_RS485_Send source destination controlCode functionCode data =
          txBody source destination controlCode functionCode data ++
            [(txBody source destination controlCode functionCode data).sum % 65536 / 256,
             (txBody source destination controlCode functionCode data).sum % 65536 % 256] ∧
        solax_RS485_Receive
            (solax_RS485_Send source destination controlCode functionCode data) =
          some ERR_NONE ∧
        (solax_RS485_Send source destination controlCode functionCode data).length =
          data.length + 11) ∧
    (solax_RS485_Send [0x01, 0x00] [0x00, 0x00] 0x11 0x02
        (List.replicate 99 0)).length = 110 ∧
    Solax_Message_t_size < 110 := by
  refine ⟨?_, by decide, by decide⟩
  intro source destination controlCode functionCode data hs hd h98
  obtain ⟨hrt1, hrt2⟩ :=
    solax_roundtrip source destination controlCode functionCode data hs hd h98
  exact ⟨solax_RS485_Send_eq hs hd controlCode functionCode data, hrt1, hrt2⟩

/-- Witness for claim C9: the round-trip statement instantiated on the
live-data query frame (empty payload). -/
theorem claim_C9_witness :
    ([0x01, 0x00] : List Nat).length = 2 ∧ ([0x00, 0x0A] : List Nat).length = 2 ∧
    ([] : List Nat).length ≤ 98 ∧
    solax_RS485_Receive (solax_RS485_Send [0x01, 0x00] [0x00, 0x0A] 0x11 0x02 []) =
      some ERR_NONE ∧
    (solax_RS485_Send [0x01, 0x00] [0x00, 0x0A] 0x11 0x02 []).length = 0 + 11 :=
  ⟨rfl, rfl, by decide,
   (claim_C9.1 [0x01, 0x00] [0x00, 0x0A] 0x11 0x02 [] rfl rfl (by decide)).2.1,
   (claim_C9.1 [0x01, 0x00] [0x00, 0x0A] 0x11 0x02 [] rfl rfl (by decide)).2.2⟩
